import Mathlib

/-!
Shallow embedding of `homeassistant/helpers/update_coordinator.py`
(class `DataUpdateCoordinator` and `CoordinatorEntity.available`).

Modelling conventions:
* Machine state is the record `Coordinator α`: the Python attributes
  `data`, `last_update_success`, `last_exception`, `_shutdown_requested`,
  `always_update`, `_update_interval_seconds`, `_microsecond`,
  `config_entry` (presence plus its `pref_disable_polling` flag),
  `_unsub_refresh` (modelled as the armed fire time, `none` when no timer
  is armed), the pending state of `_debounced_refresh` (the debouncer
  object itself lives in `helpers/debounce.py`; only its
  cancelled/pending bit is tracked here), and `_listeners`.
* The event loop and `hass` are the record `Env`: `hass.is_stopping`
  and `loop.time()`.
* A cycle's fetch result (`await self._async_update_data()`) is passed in
  as a `FetchOutcome α`: either a value or one of the classified
  exception kinds of the ordered `except` chain.
* Exceptions escaping a call are returned in the `raised` field of
  `Effects`; log calls, the `_schedule_refresh` call in the `finally`
  block, `async_update_listeners` and `async_start_reauth` are returned
  as effect flags.
* Monotonic loop time is a rational; `int(loop.time())` is `Rat.floor`
  (loop time is nonnegative, where truncation and floor agree).
-/

namespace UpdateCoordinator

/-- Classified error kinds, one per arm of the ordered `except` chain in
`DataUpdateCoordinator._async_refresh` (lines 315-386). `urlErr` keeps the
`reason == "timed out"` distinction, which only selects the log message. -/
inductive ErrKind where
  | timeoutErr
  | requestErr
  | urlErr (timedOut : Bool)
  | updateFailedErr
  | entryErr
  | authErr
  | notImplementedErr
  | unexpectedErr
deriving DecidableEq, Repr

/-- Result of one invocation of the caller-supplied fetch
(`self._async_update_data()`): a value, or an exception of one of the
classified kinds. -/
inductive FetchOutcome (α : Type) where
  | success (v : α)
  | failure (k : ErrKind)
deriving DecidableEq, Repr

/-- One registered listener: the key of the `self._listeners` dict
(identified by `lid`) together with the behaviour of its update callback,
modelled by the set of listener ids the callback unsubscribes when fired. -/
structure Listener where
  lid : Nat
  removes : List Nat
deriving DecidableEq, Repr

/-- State of one `DataUpdateCoordinator` instance (`__init__`,
lines 71-139). `unsub_refresh = some t` means a timer armed to fire at
loop time `t`; `debounce_pending` is the pending-execution bit of
`self._debounced_refresh`. -/
structure Coordinator (α : Type) where
  data : Option α
  last_update_success : Bool
  last_exception : Option ErrKind
  shutdown_requested : Bool
  always_update : Bool
  update_interval_seconds : Option ℚ
  microsecond : ℚ
  has_config_entry : Bool
  pref_disable_polling : Bool
  unsub_refresh : Option ℚ
  debounce_pending : Bool
  listeners : List Listener
deriving DecidableEq, Repr

/-- Host-side context read during a call: `self.hass.is_stopping` and the
event loop clock `loop.time()`. -/
structure Env where
  is_stopping : Bool
  loop_time : ℚ
deriving DecidableEq, Repr

/-- The keyword flags of `_async_refresh` (line 291-297). -/
structure Flags where
  log_failures : Bool
  raise_on_auth_failed : Bool
  scheduled : Bool
  raise_on_entry_error : Bool
deriving DecidableEq, Repr

/-- Observable effects of one `_async_refresh` call: whether the fetch ran,
whether the `finally` block called `_schedule_refresh`, whether
`async_update_listeners` was called, the exception propagating out of the
call if any, whether `config_entry.async_start_reauth` was called, and
whether a failure log line was emitted by an `except` arm. -/
structure Effects where
  fetched : Bool
  schedule_invoked : Bool
  notified : Bool
  raised : Option ErrKind
  reauth_started : Bool
  logged_failure : Bool
deriving DecidableEq, Repr

/-- `_async_unsub_refresh` (lines 204-208): cancel any armed timer. -/
def unsubRefresh {α : Type} (c : Coordinator α) : Coordinator α :=
  { c with unsub_refresh := none }

/-- `_schedule_refresh` (lines 227-251): no-op when `update_interval` is
unset or the config entry disables polling; otherwise cancels the current
timer and arms one at `int(loop.time()) + self._microsecond +
self._update_interval_seconds`. -/
def scheduleRefresh {α : Type} (c : Coordinator α) (loop_time : ℚ) :
    Coordinator α :=
  match c.update_interval_seconds with
  | none => c
  | some interval =>
      if c.has_config_entry && c.pref_disable_polling then c
      else
        { c with
          unsub_refresh :=
            some ((loop_time.floor : ℚ) + c.microsecond + interval) }

/-- `_unschedule_refresh` (lines 192-196): cancel the armed timer and any
pending debounced call. -/
def unscheduleRefresh {α : Type} (c : Coordinator α) : Coordinator α :=
  { c with unsub_refresh := none, debounce_pending := false }

/-- `async_add_listener` (lines 157-177): record the listener; if it is the
first one, call `_schedule_refresh`. -/
def asyncAddListener {α : Type} (c : Coordinator α) (l : Listener)
    (loop_time : ℚ) : Coordinator α :=
  let schedule_refresh := c.listeners.isEmpty
  let c1 := { c with listeners := c.listeners ++ [l] }
  if schedule_refresh then scheduleRefresh c1 loop_time else c1

/-- The `remove_listener` closure (lines 164-171): pop the listener; if the
registry became empty, `_unschedule_refresh`. -/
def removeListener {α : Type} (c : Coordinator α) (i : Nat) :
    Coordinator α :=
  let c1 := { c with listeners := c.listeners.filter (fun l => l.lid ≠ i) }
  if c1.listeners.isEmpty then unscheduleRefresh c1 else c1

/-- The iteration of `async_update_listeners` (lines 179-183): walk the
snapshot `list(self._listeners.values())`, firing each callback; a fired
callback removes the ids in its `removes` list from the live registry.
Returns the ids fired, in order, and the final registry. -/
def runCallbacks (reg : List Listener) (snapshot : List Listener)
    (calls : List Nat) : List Nat × List Listener :=
  match snapshot with
  | [] => (calls, reg)
  | l :: rest =>
      runCallbacks (reg.filter (fun x => ¬ x.lid ∈ l.removes)) rest
        (calls ++ [l.lid])

/-- `async_update_listeners` (lines 179-183): iterate over a snapshot of
the registry taken before the first callback runs. -/
def asyncUpdateListeners (reg : List Listener) : List Nat × List Listener :=
  runCallbacks reg reg []

/-- `async_shutdown` (lines 185-190): set the permanent flag, cancel the
timer and shut the debouncer down. -/
def asyncShutdown {α : Type} (c : Coordinator α) : Coordinator α :=
  { c with
    shutdown_requested := true
    unsub_refresh := none
    debounce_pending := false }

/-- Result of the `try`/`except` block of `_async_refresh`
(lines 312-391): updated coordinator, the `auth_failed` local, the
exception that will propagate (if any), whether reauth was started, and
whether a failure log line was emitted. -/
structure TryResult (α : Type) where
  coord : Coordinator α
  auth_failed : Bool
  raised : Option ErrKind
  reauth_started : Bool
  logged_failure : Bool

/-- The `try`/`except`/`else` block of `_async_refresh` (lines 312-391),
one arm per classified exception kind, in source order.  Every transient
arm stores the exception and, when `last_update_success` was still true,
logs (if `log_failures`) and flips it to false. -/
def handleOutcome {α : Type} (c : Coordinator α) (fl : Flags)
    (o : FetchOutcome α) : TryResult α :=
  match o with
  | .success v =>
      let c1 := { c with data := some v }
      let c2 :=
        if ¬ c1.last_update_success then
          { c1 with last_update_success := true }
        else c1
      ⟨c2, false, none, false, false⟩
  | .failure .timeoutErr =>
      let c1 := { c with last_exception := some .timeoutErr }
      if c1.last_update_success then
        ⟨{ c1 with last_update_success := false }, false, none, false,
          fl.log_failures⟩
      else ⟨c1, false, none, false, false⟩
  | .failure .requestErr =>
      let c1 := { c with last_exception := some .requestErr }
      if c1.last_update_success then
        ⟨{ c1 with last_update_success := false }, false, none, false,
          fl.log_failures⟩
      else ⟨c1, false, none, false, false⟩
  | .failure (.urlErr t) =>
      let c1 := { c with last_exception := some (.urlErr t) }
      if c1.last_update_success then
        ⟨{ c1 with last_update_success := false }, false, none, false,
          fl.log_failures⟩
      else ⟨c1, false, none, false, false⟩
  | .failure .updateFailedErr =>
      let c1 := { c with last_exception := some .updateFailedErr }
      if c1.last_update_success then
        ⟨{ c1 with last_update_success := false }, false, none, false,
          fl.log_failures⟩
      else ⟨c1, false, none, false, false⟩
  | .failure .entryErr =>
      let c1 := { c with last_exception := some .entryErr }
      let r :=
        if c1.last_update_success then
          ⟨{ c1 with last_update_success := false }, false, none, false,
            fl.log_failures⟩
        else (⟨c1, false, none, false, false⟩ : TryResult α)
      if fl.raise_on_entry_error then
        { r with raised := some .entryErr }
      else r
  | .failure .authErr =>
      let c1 := { c with last_exception := some .authErr }
      let r :=
        if c1.last_update_success then
          ⟨{ c1 with last_update_success := false }, true, none, false,
            fl.log_failures⟩
        else (⟨c1, true, none, false, false⟩ : TryResult α)
      if fl.raise_on_auth_failed then
        { r with raised := some .authErr }
      else
        { r with reauth_started := r.coord.has_config_entry }
  | .failure .notImplementedErr =>
      ⟨{ c with last_exception := some .notImplementedErr }, false,
        some .notImplementedErr, false, false⟩
  | .failure .unexpectedErr =>
      ⟨{ c with
          last_exception := some .unexpectedErr
          last_update_success := false }, false, none, false, true⟩

/-- `_async_refresh` (lines 291-412): cancel timer and debounce, bail out
when shut down (or scheduled while the host stops), run the fetch through
the classification block, re-arm in `finally` unless the cycle was an auth
failure / there is no listener / the host is stopping, then apply the
notification policy unless an exception is propagating. -/
def asyncRefreshWith {α : Type} [DecidableEq α] (c : Coordinator α)
    (fl : Flags) (env : Env) (o : FetchOutcome α) :
    Coordinator α × Effects :=
  let c0 := { c with unsub_refresh := none, debounce_pending := false }
  if c0.shutdown_requested || (fl.scheduled && env.is_stopping) then
    (c0, ⟨false, false, false, none, false, false⟩)
  else
    let previous_update_success := c0.last_update_success
    let previous_data := c0.data
    let r := handleOutcome c0 fl o
    let schedule_invoked :=
      ¬ r.auth_failed && ¬ r.coord.listeners.isEmpty && ¬ env.is_stopping
    let c2 :=
      if schedule_invoked then scheduleRefresh r.coord env.loop_time
      else r.coord
    if r.raised.isSome then
      (c2, ⟨true, schedule_invoked, false, r.raised, r.reauth_started,
        r.logged_failure⟩)
    else if ¬ c2.last_update_success && ¬ previous_update_success then
      (c2, ⟨true, schedule_invoked, false, none, r.reauth_started,
        r.logged_failure⟩)
    else
      let notified :=
        c2.always_update
          || decide (c2.last_update_success ≠ previous_update_success)
          || decide (previous_data ≠ c2.data)
      (c2, ⟨true, schedule_invoked, notified, none, r.reauth_started,
        r.logged_failure⟩)

/-- `_handle_refresh_interval` (lines 253-256): the timer fired, so clear
the handle and refresh with `log_failures=True, scheduled=True`. -/
def handleRefreshInterval {α : Type} [DecidableEq α] (c : Coordinator α)
    (env : Env) (o : FetchOutcome α) : Coordinator α × Effects :=
  asyncRefreshWith { c with unsub_refresh := none }
    ⟨true, false, true, false⟩ env o

/-- `async_refresh` (lines 287-289): manual refresh with default flags. -/
def asyncRefresh {α : Type} [DecidableEq α] (c : Coordinator α) (env : Env)
    (o : FetchOutcome α) : Coordinator α × Effects :=
  asyncRefreshWith c ⟨true, false, false, false⟩ env o

/-- What escapes `async_config_entry_first_refresh`: an exception the
refresh cycle itself re-raised, or the `ConfigEntryNotReady` it builds
(whose `__cause__` is `self.last_exception`). -/
inductive FirstRefreshRaise where
  | fromCycle (k : ErrKind)
  | notReady (cause : Option ErrKind)
deriving DecidableEq, Repr

/-- `async_config_entry_first_refresh` (lines 271-285): one cycle with
`log_failures=False, raise_on_auth_failed=True, raise_on_entry_error=True`;
exceptions from the cycle propagate; otherwise raise `ConfigEntryNotReady`
(cause `self.last_exception`) iff `last_update_success` is false. -/
def asyncConfigEntryFirstRefresh {α : Type} [DecidableEq α]
    (c : Coordinator α) (env : Env) (o : FetchOutcome α) :
    Coordinator α × Effects × Option FirstRefreshRaise :=
  let r := asyncRefreshWith c ⟨false, true, false, true⟩ env o
  match r.2.raised with
  | some k => (r.1, r.2, some (.fromCycle k))
  | none =>
      if r.1.last_update_success then (r.1, r.2, none)
      else (r.1, r.2, some (.notReady r.1.last_exception))

/-- `async_set_update_error` (lines 414-421): store the error; when
`last_update_success` was true, log, flip it to false and notify.  The
returned flag is whether `async_update_listeners` was called. -/
def asyncSetUpdateError {α : Type} (c : Coordinator α) (k : ErrKind) :
    Coordinator α × Bool :=
  let c1 := { c with last_exception := some k }
  if c1.last_update_success then
    ({ c1 with last_update_success := false }, true)
  else (c1, false)

/-- `async_set_updated_data` (lines 423-439): cancel timer and debounce,
store the data, set `last_update_success`, re-arm iff listeners exist,
always notify.  The returned flag is whether `async_update_listeners` was
called (always true). -/
def asyncSetUpdatedData {α : Type} (c : Coordinator α) (v : α)
    (loop_time : ℚ) : Coordinator α × Bool :=
  let c1 :=
    { c with
      unsub_refresh := none
      debounce_pending := false
      data := some v
      last_update_success := true }
  let c2 :=
    if ¬ c1.listeners.isEmpty then scheduleRefresh c1 loop_time else c1
  (c2, true)

/-- `CoordinatorEntity.available` (lines 516-519): the entity is available
iff the coordinator's `last_update_success` is true. -/
def entityAvailable {α : Type} (c : Coordinator α) : Bool :=
  c.last_update_success

/-- One externally triggered operation on a coordinator, covering every
public mutator of the class. -/
inductive Op (α : Type) where
  | refresh (fl : Flags) (env : Env) (o : FetchOutcome α)
  | setUpdateError (k : ErrKind)
  | setUpdatedData (v : α) (loop_time : ℚ)
  | addListener (l : Listener) (loop_time : ℚ)
  | remListener (i : Nat)
  | shutdown
  | notifyListeners
deriving DecidableEq, Repr

/-- State transition of one operation.  `notifyListeners` runs the
callbacks (whose removals go through the `remove_listener` closure, which
unschedules once the registry is empty). -/
def step {α : Type} [DecidableEq α] (c : Coordinator α) : Op α →
    Coordinator α
  | .refresh fl env o => (asyncRefreshWith c fl env o).1
  | .setUpdateError k => (asyncSetUpdateError c k).1
  | .setUpdatedData v t => (asyncSetUpdatedData c v t).1
  | .addListener l t => asyncAddListener c l t
  | .remListener i => removeListener c i
  | .shutdown => asyncShutdown c
  | .notifyListeners =>
      let reg := (asyncUpdateListeners c.listeners).2
      let c1 := { c with listeners := reg }
      if reg.isEmpty && ¬ c.listeners.isEmpty then unscheduleRefresh c1
      else c1

/-- Operations whose run, when it changes `last_update_success` from true
to false, did so because a fetch failed or an error was injected. -/
def Op.isFailureOp {α : Type} : Op α → Bool
  | .refresh _ _ (.failure _) => true
  | .setUpdateError _ => true
  | _ => false

/-- Operations that can set `last_update_success` back to true: a
successful refresh cycle or a manual data injection. -/
def Op.isSuccessOp {α : Type} : Op α → Bool
  | .refresh _ _ (.success _) => true
  | .setUpdatedData _ _ => true
  | _ => false


/-!
Characterizations of the refresh cycle, proved once and reused by the
claim theorems below.  `lusAfter`, `dataAfter` and `raisedOf` summarize
what the classification block of `_async_refresh` does to
`last_update_success` and `data` and which exception escapes it.
-/

/-- Value of `last_update_success` after the classification block: success
always sets it true, `NotImplementedError` leaves it untouched, every
other failure leaves it or flips it to false. -/
def lusAfter {α : Type} (lus : Bool) : FetchOutcome α → Bool
  | .success _ => true
  | .failure .notImplementedErr => lus
  | .failure _ => false

/-- Value of `data` after the classification block: overwritten on
success only. -/
def dataAfter {α : Type} (d : Option α) : FetchOutcome α → Option α
  | .success v => some v
  | .failure _ => d

/-- Value of `last_exception` after the classification block: every
failure arm stores the caught exception; the success arm does not clear
it. -/
def lastExceptionAfter {α : Type} (e : Option ErrKind) :
    FetchOutcome α → Option ErrKind
  | .success _ => e
  | .failure k => some k

/-- The exception propagating out of the classification block:
`ConfigEntryError` when `raise_on_entry_error`, `ConfigEntryAuthFailed`
when `raise_on_auth_failed`, `NotImplementedError` always, nothing else. -/
def raisedOf {α : Type} (fl : Flags) : FetchOutcome α → Option ErrKind
  | .failure .entryErr =>
      if fl.raise_on_entry_error then some .entryErr else none
  | .failure .authErr =>
      if fl.raise_on_auth_failed then some .authErr else none
  | .failure .notImplementedErr => some .notImplementedErr
  | _ => none

/-- Whether the outcome is the `ConfigEntryAuthFailed` kind (the
`auth_failed` local of `_async_refresh`). -/
def FetchOutcome.isAuth {α : Type} : FetchOutcome α → Bool
  | .failure .authErr => true
  | _ => false

/-- Whether the fetch outcome is a failure of any kind. -/
def FetchOutcome.isFailure {α : Type} : FetchOutcome α → Bool
  | .failure _ => true
  | .success _ => false

/-- Whether the operation invoked `async_update_listeners`:
`_async_refresh` per its notification decision, `async_set_update_error`
iff `last_update_success` flipped, `async_set_updated_data` always, the
registry operations never; the `notifyListeners` operation is itself the
call. -/
def notifyFlag {α : Type} [DecidableEq α] (c : Coordinator α) :
    Op α → Bool
  | .refresh fl env o => (asyncRefreshWith c fl env o).2.notified
  | .setUpdateError k => (asyncSetUpdateError c k).2
  | .setUpdatedData v t => (asyncSetUpdatedData c v t).2
  | .addListener _ _ => false
  | .remListener _ => false
  | .shutdown => false
  | .notifyListeners => true

/-- Modelled from the spec: `RANDOM_MICROSECOND_MIN` lives in
`helpers/event.py`, which is not among the sources here; the spec (and
the comment at lines 100-103 of the source) fixes the jitter draw range
to 0.05-0.50 s, i.e. 50000-500000 microseconds. -/
def RANDOM_MICROSECOND_MIN : ℕ := 50000

/-- Modelled from the spec: `RANDOM_MICROSECOND_MAX` lives in
`helpers/event.py`; see `RANDOM_MICROSECOND_MIN`. -/
def RANDOM_MICROSECOND_MAX : ℕ := 500000

/-- `__init__` (lines 71-139), restricted to the modelled fields.
`randMicro` is the value drawn once by
`randint(RANDOM_MICROSECOND_MIN, RANDOM_MICROSECOND_MAX)`;
`self._microsecond` is it divided by `10**6`. -/
def initCoordinator (α : Type) (update_interval : Option ℚ)
    (always_update : Bool) (has_entry disable_polling : Bool)
    (randMicro : ℕ) : Coordinator α :=
  { data := none
    last_update_success := true
    last_exception := none
    shutdown_requested := false
    always_update := always_update
    update_interval_seconds := update_interval
    microsecond := (randMicro : ℚ) / 10 ^ 6
    has_config_entry := has_entry
    pref_disable_polling := disable_polling
    unsub_refresh := none
    debounce_pending := false
    listeners := [] }

/-- A concrete coordinator used by the closed witness and counterexample
theorems: one listener, a 30 s interval, 0.1 s jitter, no timer armed,
last cycle successful with value 1. -/
def c_ok : Coordinator Nat :=
  { data := some 1
    last_update_success := true
    last_exception := none
    shutdown_requested := false
    always_update := false
    update_interval_seconds := some 30
    microsecond := 1 / 10
    has_config_entry := true
    pref_disable_polling := false
    unsub_refresh := none
    debounce_pending := false
    listeners := [⟨0, []⟩] }

theorem handleOutcome_spec {α : Type} (c : Coordinator α) (fl : Flags)
    (o : FetchOutcome α) :
    (handleOutcome c fl o).coord.last_update_success
        = lusAfter c.last_update_success o ∧
    (handleOutcome c fl o).coord.data = dataAfter c.data o ∧
    (handleOutcome c fl o).raised = raisedOf fl o ∧
    (handleOutcome c fl o).auth_failed = o.isAuth ∧
    (handleOutcome c fl o).coord.listeners = c.listeners ∧
    (handleOutcome c fl o).coord.microsecond = c.microsecond ∧
    (handleOutcome c fl o).coord.always_update = c.always_update ∧
    (handleOutcome c fl o).coord.unsub_refresh = c.unsub_refresh ∧
    (handleOutcome c fl o).coord.update_interval_seconds
        = c.update_interval_seconds ∧
    (handleOutcome c fl o).coord.has_config_entry = c.has_config_entry ∧
    (handleOutcome c fl o).coord.pref_disable_polling
        = c.pref_disable_polling ∧
    (handleOutcome c fl o).coord.shutdown_requested
        = c.shutdown_requested ∧
    (handleOutcome c fl o).coord.debounce_pending = c.debounce_pending ∧
    (handleOutcome c fl o).coord.last_exception
        = lastExceptionAfter c.last_exception o := by
  rcases o with v | k
  · simp only [handleOutcome, lusAfter, dataAfter, raisedOf,
      FetchOutcome.isAuth, lastExceptionAfter]
    split_ifs <;> simp_all
  · cases k <;>
      simp only [handleOutcome, lusAfter, dataAfter, raisedOf,
        FetchOutcome.isAuth, lastExceptionAfter] <;>
      first
        | (split_ifs <;> simp_all)
        | simp_all

@[simp]
theorem handleOutcome_lus {α : Type} (c : Coordinator α) (fl : Flags)
    (o : FetchOutcome α) :
    (handleOutcome c fl o).coord.last_update_success
      = lusAfter c.last_update_success o :=
  (handleOutcome_spec c fl o).1

@[simp]
theorem handleOutcome_data {α : Type} (c : Coordinator α) (fl : Flags)
    (o : FetchOutcome α) :
    (handleOutcome c fl o).coord.data = dataAfter c.data o :=
  (handleOutcome_spec c fl o).2.1

@[simp]
theorem handleOutcome_raised {α : Type} (c : Coordinator α) (fl : Flags)
    (o : FetchOutcome α) :
    (handleOutcome c fl o).raised = raisedOf fl o :=
  (handleOutcome_spec c fl o).2.2.1

@[simp]
theorem handleOutcome_auth_failed {α : Type} (c : Coordinator α)
    (fl : Flags) (o : FetchOutcome α) :
    (handleOutcome c fl o).auth_failed = o.isAuth :=
  (handleOutcome_spec c fl o).2.2.2.1

@[simp]
theorem handleOutcome_listeners {α : Type} (c : Coordinator α) (fl : Flags)
    (o : FetchOutcome α) :
    (handleOutcome c fl o).coord.listeners = c.listeners :=
  (handleOutcome_spec c fl o).2.2.2.2.1

@[simp]
theorem handleOutcome_microsecond {α : Type} (c : Coordinator α)
    (fl : Flags) (o : FetchOutcome α) :
    (handleOutcome c fl o).coord.microsecond = c.microsecond :=
  (handleOutcome_spec c fl o).2.2.2.2.2.1

@[simp]
theorem handleOutcome_always_update {α : Type} (c : Coordinator α)
    (fl : Flags) (o : FetchOutcome α) :
    (handleOutcome c fl o).coord.always_update = c.always_update :=
  (handleOutcome_spec c fl o).2.2.2.2.2.2.1

@[simp]
theorem handleOutcome_unsub_refresh {α : Type} (c : Coordinator α)
    (fl : Flags) (o : FetchOutcome α) :
    (handleOutcome c fl o).coord.unsub_refresh = c.unsub_refresh :=
  (handleOutcome_spec c fl o).2.2.2.2.2.2.2.1

@[simp]
theorem handleOutcome_update_interval {α : Type} (c : Coordinator α)
    (fl : Flags) (o : FetchOutcome α) :
    (handleOutcome c fl o).coord.update_interval_seconds
      = c.update_interval_seconds :=
  (handleOutcome_spec c fl o).2.2.2.2.2.2.2.2.1

@[simp]
theorem handleOutcome_has_config_entry {α : Type} (c : Coordinator α)
    (fl : Flags) (o : FetchOutcome α) :
    (handleOutcome c fl o).coord.has_config_entry = c.has_config_entry :=
  (handleOutcome_spec c fl o).2.2.2.2.2.2.2.2.2.1

@[simp]
theorem handleOutcome_pref_disable {α : Type} (c : Coordinator α)
    (fl : Flags) (o : FetchOutcome α) :
    (handleOutcome c fl o).coord.pref_disable_polling
      = c.pref_disable_polling :=
  (handleOutcome_spec c fl o).2.2.2.2.2.2.2.2.2.2.1

@[simp]
theorem handleOutcome_shutdown {α : Type} (c : Coordinator α) (fl : Flags)
    (o : FetchOutcome α) :
    (handleOutcome c fl o).coord.shutdown_requested
      = c.shutdown_requested :=
  (handleOutcome_spec c fl o).2.2.2.2.2.2.2.2.2.2.2.1

@[simp]
theorem handleOutcome_debounce {α : Type} (c : Coordinator α) (fl : Flags)
    (o : FetchOutcome α) :
    (handleOutcome c fl o).coord.debounce_pending = c.debounce_pending :=
  (handleOutcome_spec c fl o).2.2.2.2.2.2.2.2.2.2.2.2.1

@[simp]
theorem handleOutcome_last_exception {α : Type} (c : Coordinator α)
    (fl : Flags) (o : FetchOutcome α) :
    (handleOutcome c fl o).coord.last_exception
      = lastExceptionAfter c.last_exception o :=
  (handleOutcome_spec c fl o).2.2.2.2.2.2.2.2.2.2.2.2.2

theorem scheduleRefresh_frame {α : Type} (c : Coordinator α) (t : ℚ) :
    (scheduleRefresh c t).last_update_success = c.last_update_success ∧
    (scheduleRefresh c t).data = c.data ∧
    (scheduleRefresh c t).last_exception = c.last_exception ∧
    (scheduleRefresh c t).listeners = c.listeners ∧
    (scheduleRefresh c t).microsecond = c.microsecond ∧
    (scheduleRefresh c t).always_update = c.always_update ∧
    (scheduleRefresh c t).update_interval_seconds
        = c.update_interval_seconds ∧
    (scheduleRefresh c t).has_config_entry = c.has_config_entry ∧
    (scheduleRefresh c t).pref_disable_polling = c.pref_disable_polling ∧
    (scheduleRefresh c t).shutdown_requested = c.shutdown_requested ∧
    (scheduleRefresh c t).debounce_pending = c.debounce_pending := by
  rcases hc : c.update_interval_seconds with _ | i <;>
    simp only [scheduleRefresh, hc] <;>
    first
      | (split_ifs <;> simp_all)
      | simp_all

@[simp]
theorem scheduleRefresh_lus {α : Type} (c : Coordinator α) (t : ℚ) :
    (scheduleRefresh c t).last_update_success = c.last_update_success :=
  (scheduleRefresh_frame c t).1

@[simp]
theorem scheduleRefresh_data {α : Type} (c : Coordinator α) (t : ℚ) :
    (scheduleRefresh c t).data = c.data :=
  (scheduleRefresh_frame c t).2.1

@[simp]
theorem scheduleRefresh_last_exception {α : Type} (c : Coordinator α)
    (t : ℚ) : (scheduleRefresh c t).last_exception = c.last_exception :=
  (scheduleRefresh_frame c t).2.2.1

@[simp]
theorem scheduleRefresh_listeners {α : Type} (c : Coordinator α) (t : ℚ) :
    (scheduleRefresh c t).listeners = c.listeners :=
  (scheduleRefresh_frame c t).2.2.2.1

@[simp]
theorem scheduleRefresh_microsecond {α : Type} (c : Coordinator α)
    (t : ℚ) : (scheduleRefresh c t).microsecond = c.microsecond :=
  (scheduleRefresh_frame c t).2.2.2.2.1

@[simp]
theorem scheduleRefresh_always_update {α : Type} (c : Coordinator α)
    (t : ℚ) : (scheduleRefresh c t).always_update = c.always_update :=
  (scheduleRefresh_frame c t).2.2.2.2.2.1

@[simp]
theorem scheduleRefresh_update_interval {α : Type} (c : Coordinator α)
    (t : ℚ) :
    (scheduleRefresh c t).update_interval_seconds
      = c.update_interval_seconds :=
  (scheduleRefresh_frame c t).2.2.2.2.2.2.1

@[simp]
theorem scheduleRefresh_has_config_entry {α : Type} (c : Coordinator α)
    (t : ℚ) : (scheduleRefresh c t).has_config_entry = c.has_config_entry :=
  (scheduleRefresh_frame c t).2.2.2.2.2.2.2.1

@[simp]
theorem scheduleRefresh_pref_disable {α : Type} (c : Coordinator α)
    (t : ℚ) :
    (scheduleRefresh c t).pref_disable_polling = c.pref_disable_polling :=
  (scheduleRefresh_frame c t).2.2.2.2.2.2.2.2.1

@[simp]
theorem scheduleRefresh_shutdown {α : Type} (c : Coordinator α) (t : ℚ) :
    (scheduleRefresh c t).shutdown_requested = c.shutdown_requested :=
  (scheduleRefresh_frame c t).2.2.2.2.2.2.2.2.2.1

@[simp]
theorem scheduleRefresh_debounce {α : Type} (c : Coordinator α) (t : ℚ) :
    (scheduleRefresh c t).debounce_pending = c.debounce_pending :=
  (scheduleRefresh_frame c t).2.2.2.2.2.2.2.2.2.2

/-- An aborted call (`self._shutdown_requested or scheduled and
self.hass.is_stopping`, line 302): only the timer and debounce
cancellation at the top of `_async_refresh` happened. -/
theorem asyncRefreshWith_abort {α : Type} [DecidableEq α]
    (c : Coordinator α) (fl : Flags) (env : Env) (o : FetchOutcome α)
    (h : (c.shutdown_requested || (fl.scheduled && env.is_stopping))
        = true) :
    asyncRefreshWith c fl env o =
      ({ c with unsub_refresh := none, debounce_pending := false },
        ⟨false, false, false, none, false, false⟩) := by
  simp only [asyncRefreshWith]
  rw [if_pos]
  simpa using h

/-- Master characterization of one non-aborted `_async_refresh` call. -/
theorem asyncRefreshWith_run {α : Type} [DecidableEq α] (c : Coordinator α)
    (fl : Flags) (env : Env) (o : FetchOutcome α)
    (h : (c.shutdown_requested || (fl.scheduled && env.is_stopping))
        = false) :
    (asyncRefreshWith c fl env o).2.fetched = true ∧
    (asyncRefreshWith c fl env o).2.raised = raisedOf fl o ∧
    (asyncRefreshWith c fl env o).2.schedule_invoked
        = (¬ o.isAuth && ¬ c.listeners.isEmpty && ¬ env.is_stopping) ∧
    (asyncRefreshWith c fl env o).1.last_update_success
        = lusAfter c.last_update_success o ∧
    (asyncRefreshWith c fl env o).1.data = dataAfter c.data o ∧
    (asyncRefreshWith c fl env o).1.listeners = c.listeners ∧
    (asyncRefreshWith c fl env o).1.microsecond = c.microsecond ∧
    (asyncRefreshWith c fl env o).1.always_update = c.always_update ∧
    (asyncRefreshWith c fl env o).1.update_interval_seconds
        = c.update_interval_seconds ∧
    (asyncRefreshWith c fl env o).1.has_config_entry
        = c.has_config_entry ∧
    (asyncRefreshWith c fl env o).1.pref_disable_polling
        = c.pref_disable_polling ∧
    (asyncRefreshWith c fl env o).1.shutdown_requested
        = c.shutdown_requested ∧
    (asyncRefreshWith c fl env o).1.last_exception
        = lastExceptionAfter c.last_exception o ∧
    (asyncRefreshWith c fl env o).2.notified
        = (if (raisedOf fl o).isSome then false
           else if ¬ lusAfter c.last_update_success o
              && ¬ c.last_update_success then false
           else
             (c.always_update
               || decide (lusAfter c.last_update_success o
                    ≠ c.last_update_success)
               || decide (c.data ≠ dataAfter c.data o))) := by
  simp only [asyncRefreshWith]
  split_ifs <;>
    first
      | (simp_all; done)
      | (rcases o with v | k <;>
          first
            | (simp_all [lusAfter, dataAfter, lastExceptionAfter]; done)
            | (cases k <;>
                simp_all [lusAfter, dataAfter, lastExceptionAfter]))

/-!
Claim theorems.
-/

/-- Claim C5: at the end of every refresh cycle that actually ran its
fetch - success or any failure, including one whose exception propagates
out of `_async_refresh` (the `finally` block still runs) - the scheduler
is re-armed (`_schedule_refresh` is invoked, line 401-402) if and only if
the listener set is non-empty, the host is not stopping, and the cycle
did not end in `ConfigEntryAuthFailed`. -/
theorem c5_reschedule_policy {α : Type} [DecidableEq α]
    (c : Coordinator α) (fl : Flags) (env : Env) (o : FetchOutcome α)
    (hrun : (c.shutdown_requested || (fl.scheduled && env.is_stopping))
        = false) :
    (asyncRefreshWith c fl env o).2.schedule_invoked
      = (¬ o.isAuth && ¬ c.listeners.isEmpty && ¬ env.is_stopping) :=
  (asyncRefreshWith_run c fl env o hrun).2.2.1

/-- Claim C5, witness: a concrete failing cycle (transport error, one
listener, host running) re-arms; the hypothesis is discharged at the
concrete state. -/
theorem c5_witness :
    (asyncRefreshWith c_ok ⟨true, false, false, false⟩ ⟨false, 100⟩
        (.failure .requestErr)).2.schedule_invoked
      = (¬ (FetchOutcome.failure (α := Nat) .requestErr).isAuth
          && ¬ c_ok.listeners.isEmpty && ¬ (false : Bool)) :=
  c5_reschedule_policy c_ok ⟨true, false, false, false⟩ ⟨false, 100⟩
    (.failure .requestErr) rfl

/-- Claim C6: a cycle whose fetch raises `NotImplementedError`, scheduled
or not (`fl` ranges over all flag combinations), re-raises it out of
`_async_refresh` (lines 377-379) instead of recording-and-swallowing, and
never reaches the notification decision, so no listener notification
occurs for that cycle. -/
theorem c6_programmer_error_propagates {α : Type} [DecidableEq α]
    (c : Coordinator α) (fl : Flags) (env : Env)
    (hrun : (c.shutdown_requested || (fl.scheduled && env.is_stopping))
        = false) :
    (asyncRefreshWith c fl env (.failure .notImplementedErr)).2.raised
        = some .notImplementedErr
  ∧ (asyncRefreshWith c fl env (.failure .notImplementedErr)).2.notified
        = false := by
  obtain ⟨-, hr, -, -, -, -, -, -, -, -, -, -, -, hn⟩ :=
    asyncRefreshWith_run c fl env (.failure .notImplementedErr) hrun
  refine ⟨by rw [hr]; rfl, by rw [hn]; rfl⟩

/-- Claim C6, witness: a scheduled cycle raising `NotImplementedError` on
a concrete coordinator propagates the error and does not notify. -/
theorem c6_witness :
    (asyncRefreshWith c_ok ⟨true, false, true, false⟩ ⟨false, 100⟩
        (.failure .notImplementedErr)).2.raised
        = some .notImplementedErr
  ∧ (asyncRefreshWith c_ok ⟨true, false, true, false⟩ ⟨false, 100⟩
        (.failure .notImplementedErr)).2.notified = false :=
  c6_programmer_error_propagates c_ok ⟨true, false, true, false⟩
    ⟨false, 100⟩ rfl

/-- Claim C10: a `NotImplementedError` cycle records the error as
`last_exception` and re-raises it, and every data-model field of the
coordinator keeps its prior value - in particular `data` and
`last_update_success`, so `CoordinatorEntity.available` is unchanged.
(The timer handle and the debouncer, which the data model lists as
separate collaborator objects, undergo the cancel/re-arm every cycle
performs at entry and in `finally`.) -/
theorem c10_programmer_error_frame {α : Type} [DecidableEq α]
    (c : Coordinator α) (fl : Flags) (env : Env)
    (hrun : (c.shutdown_requested || (fl.scheduled && env.is_stopping))
        = false) :
    (asyncRefreshWith c fl env (.failure .notImplementedErr)).1.last_exception
        = some .notImplementedErr
  ∧ (asyncRefreshWith c fl env (.failure .notImplementedErr)).1.data
        = c.data
  ∧ (asyncRefreshWith c fl env
        (.failure .notImplementedErr)).1.last_update_success
        = c.last_update_success
  ∧ (asyncRefreshWith c fl env (.failure .notImplementedErr)).1.listeners
        = c.listeners
  ∧ (asyncRefreshWith c fl env
        (.failure .notImplementedErr)).1.always_update = c.always_update
  ∧ (asyncRefreshWith c fl env
        (.failure .notImplementedErr)).1.update_interval_seconds
        = c.update_interval_seconds
  ∧ (asyncRefreshWith c fl env
        (.failure .notImplementedErr)).1.microsecond = c.microsecond
  ∧ (asyncRefreshWith c fl env
        (.failure .notImplementedErr)).1.shutdown_requested
        = c.shutdown_requested
  ∧ (asyncRefreshWith c fl env
        (.failure .notImplementedErr)).1.has_config_entry
        = c.has_config_entry
  ∧ (asyncRefreshWith c fl env
        (.failure .notImplementedErr)).1.pref_disable_polling
        = c.pref_disable_polling
  ∧ (asyncRefreshWith c fl env (.failure .notImplementedErr)).2.raised
        = some .notImplementedErr
  ∧ entityAvailable
        (asyncRefreshWith c fl env (.failure .notImplementedErr)).1
        = entityAvailable c := by
  obtain ⟨-, hr, -, hl, hd, hls, hms, hau, hui, hce, hpd, hsd, hle, -⟩ :=
    asyncRefreshWith_run c fl env (.failure .notImplementedErr) hrun
  exact ⟨by rw [hle]; rfl, by rw [hd]; rfl, by rw [hl]; rfl, hls, hau,
    hui, hms, hsd, hce, hpd, by rw [hr]; rfl,
    by unfold entityAvailable; rw [hl]; rfl⟩

/-- Claim C10, witness: concrete `NotImplementedError` cycle after a
successful one - `data` still `some 1`, success state and availability
still true, error recorded and re-raised. -/
theorem c10_witness :
    (asyncRefreshWith c_ok ⟨true, false, false, false⟩ ⟨false, 100⟩
        (.failure .notImplementedErr)).1.last_exception
        = some .notImplementedErr
  ∧ (asyncRefreshWith c_ok ⟨true, false, false, false⟩ ⟨false, 100⟩
        (.failure .notImplementedErr)).1.data = c_ok.data
  ∧ entityAvailable
        (asyncRefreshWith c_ok ⟨true, false, false, false⟩ ⟨false, 100⟩
          (.failure .notImplementedErr)).1 = entityAvailable c_ok := by
  obtain ⟨h1, h2, -, -, -, -, -, -, -, -, -, h3⟩ :=
    c10_programmer_error_frame c_ok ⟨true, false, false, false⟩
      ⟨false, 100⟩ rfl
  exact ⟨h1, h2, h3⟩

theorem runCallbacks_calls (snapshot : List Listener) :
    ∀ (reg : List Listener) (calls : List Nat),
      (runCallbacks reg snapshot calls).1
        = calls ++ snapshot.map (fun l => l.lid) := by
  induction snapshot with
  | nil => intro reg calls; simp [runCallbacks]
  | cons l rest ih =>
      intro reg calls
      simp [runCallbacks, ih]

/-- Claim C8: `async_update_listeners` iterates over the snapshot
`list(self._listeners.values())` taken before the first callback runs, so
whatever removals the callbacks perform on the live registry, the fired
callbacks are exactly the listeners registered at notification time, each
exactly once, in registration order - none skipped, none double-fired. -/
theorem c8_snapshot_iteration (reg : List Listener) :
    (asyncUpdateListeners reg).1 = reg.map (fun l => l.lid) := by
  unfold asyncUpdateListeners
  rw [runCallbacks_calls]
  rfl

/-- Claim C1, counterexample: a cycle whose fetch fails with
`ConfigEntryAuthFailed` and that is not configured to re-raise it *does*
notify listeners when the previous cycle was successful.  The
`auth_failed` local only suppresses the reschedule in the `finally` block
(line 401); the notification decision (lines 404-412) has no auth check
and sees `last_update_success` flip from true to false. -/
theorem c1_counterexample :
    (asyncRefreshWith c_ok ⟨true, false, false, false⟩ ⟨false, 100⟩
      (.failure .authErr)).2.notified = true := by
  rfl

/-- Claim C1, amended: an `AuthFailure` cycle that is not re-raised
suppresses *rescheduling*, not notification: it notifies exactly when the
previous state was a success (the first transition into failure), never
when the previous cycle had already failed, and it never invokes
`_schedule_refresh`. -/
theorem c1_amended {α : Type} [DecidableEq α] (c : Coordinator α)
    (fl : Flags) (env : Env)
    (hraise : fl.raise_on_auth_failed = false)
    (hrun : (c.shutdown_requested || (fl.scheduled && env.is_stopping))
        = false) :
    (asyncRefreshWith c fl env (.failure .authErr)).2.notified
        = c.last_update_success
  ∧ (asyncRefreshWith c fl env (.failure .authErr)).2.schedule_invoked
        = false := by
  obtain ⟨-, -, hsch, -, -, -, -, -, -, -, -, -, -, hnot⟩ :=
    asyncRefreshWith_run c fl env (.failure .authErr) hrun
  constructor
  · rw [hnot]
    cases hl : c.last_update_success <;>
      simp [raisedOf, hraise, lusAfter, dataAfter]
  · rw [hsch]
    simp [FetchOutcome.isAuth]

/-- Claim C1, amended, witness: at the concrete coordinator the auth
cycle notifies (previous state successful) and does not re-arm. -/
theorem c1_amended_witness :
    (asyncRefreshWith c_ok ⟨true, false, false, false⟩ ⟨false, 200⟩
        (.failure .authErr)).2.notified = c_ok.last_update_success
  ∧ (asyncRefreshWith c_ok ⟨true, false, false, false⟩ ⟨false, 200⟩
        (.failure .authErr)).2.schedule_invoked = false :=
  c1_amended c_ok ⟨true, false, false, false⟩ ⟨false, 200⟩ rfl rfl

/-- Claim C2, counterexample: `_schedule_refresh` has no
`_shutdown_requested` check (lines 227-251), and `async_add_listener`
(lines 157-177) schedules whenever the registry was empty - so adding a
listener to a shut-down coordinator arms the timer
(`100 + 0.1 + 30 = 130.1`), contradicting "no subsequent trigger ever
arms the scheduler's timer". -/
theorem c2_counterexample :
    (asyncAddListener
        { c_ok with shutdown_requested := true, listeners := [] }
        ⟨5, []⟩ 100).unsub_refresh = some (1301 / 10) := by
  simp only [asyncAddListener, c_ok, scheduleRefresh]
  norm_num [Rat.floor_def']

/-- Claim C2, amended: after `shutdown()`, a timer fire or a (manual or
scheduled) refresh call does nothing at all - no fetch, no re-arm, no
notification, state untouched except the entry cancellation of timer and
debounce - because `_async_refresh` returns at its shutdown guard
(line 302); but adding a first listener still calls `_schedule_refresh`
and arms the timer, whose eventual fire then performs no fetch. -/
theorem c2_amended {α : Type} [DecidableEq α] (c : Coordinator α)
    (fl : Flags) (env : Env) (o : FetchOutcome α) (l : Listener) (t : ℚ)
    (h : c.shutdown_requested = true) :
    asyncRefreshWith c fl env o =
      ({ c with unsub_refresh := none, debounce_pending := false },
        ⟨false, false, false, none, false, false⟩)
  ∧ (handleRefreshInterval (asyncAddListener c l t) env o).2.fetched
        = false := by
  have hsd : (asyncAddListener c l t).shutdown_requested = true := by
    simp only [asyncAddListener]
    split_ifs <;> simp [h]
  constructor
  · exact asyncRefreshWith_abort c fl env o (by simp [h])
  · unfold handleRefreshInterval
    rw [asyncRefreshWith_abort _ _ _ _ (by simp [hsd])]

/-- Claim C2, amended, witness: concrete shut-down coordinator - a
scheduled refresh call is inert, and the timer armed by a post-shutdown
listener addition does not fetch when it fires. -/
theorem c2_amended_witness :
    asyncRefreshWith
        { c_ok with shutdown_requested := true }
        ⟨true, false, true, false⟩ ⟨false, 100⟩ (.success 2) =
      ({ { c_ok with shutdown_requested := true } with
          unsub_refresh := none, debounce_pending := false },
        ⟨false, false, false, none, false, false⟩)
  ∧ (handleRefreshInterval
        (asyncAddListener { c_ok with shutdown_requested := true }
          ⟨7, []⟩ 50)
        ⟨false, 100⟩ (.success 2)).2.fetched = false :=
  c2_amended { c_ok with shutdown_requested := true }
    ⟨true, false, true, false⟩ ⟨false, 100⟩ (.success 2) ⟨7, []⟩ 50 rfl

/-- Claim C9, counterexample: when `arm()` schedules, the timer is set to
`int(loop.time()) + jitter + interval` (line 246-248), i.e. the *floored*
clock - at loop time `1/2` with jitter `1/10` and interval `30` the timer
is armed for `30.1`, not the claimed `now + jitter + interval = 30.6`. -/
theorem c9_counterexample :
    (scheduleRefresh c_ok (1 / 2)).unsub_refresh = some (301 / 10)
  ∧ (301 / 10 : ℚ) ≠ 1 / 2 + c_ok.microsecond + 30 := by
  constructor
  · simp only [scheduleRefresh, c_ok]
    norm_num [Rat.floor_def']
  · norm_num [c_ok]

/-- Claim C9, amended: whenever `arm()` actually schedules (interval
present, polling not disabled) the timer fires at the integer-truncated
current loop time plus the jitter offset plus the interval; the jitter
offset is drawn once at construction from the 50000-500000 microsecond
range (hence lies in [0.05 s, 0.5 s]) and is preserved by every
operation on the coordinator, so it is the same for every arming. -/
theorem c9_amended {α : Type} [DecidableEq α] (c : Coordinator α)
    (t i : ℚ) (op : Op α) (ui : Option ℚ) (au he dp : Bool) (r : ℕ)
    (hi : c.update_interval_seconds = some i)
    (hp : (c.has_config_entry && c.pref_disable_polling) = false)
    (hr1 : RANDOM_MICROSECOND_MIN ≤ r)
    (hr2 : r ≤ RANDOM_MICROSECOND_MAX) :
    (scheduleRefresh c t).unsub_refresh
        = some ((t.floor : ℚ) + c.microsecond + i)
  ∧ (step c op).microsecond = c.microsecond
  ∧ (1 / 20 : ℚ) ≤ (initCoordinator α ui au he dp r).microsecond
  ∧ (initCoordinator α ui au he dp r).microsecond ≤ 1 / 2 := by
  have hr1Q : (50000 : ℚ) ≤ (r : ℚ) := by
    exact_mod_cast hr1
  have hr2Q : (r : ℚ) ≤ 500000 := by
    exact_mod_cast hr2
  refine ⟨?_, ?_, ?_, ?_⟩
  · unfold scheduleRefresh
    rw [hi]
    simp [hp]
  · rcases op with ⟨fl, env, o⟩ | k | ⟨v, tt⟩ | ⟨l, tt⟩ | ii | _ | _
    · cases hb :
        (c.shutdown_requested || (fl.scheduled && env.is_stopping)) with
      | false => exact (asyncRefreshWith_run c fl env o hb).2.2.2.2.2.2.1
      | true =>
          rw [show step c (Op.refresh fl env o)
              = (asyncRefreshWith c fl env o).1 from rfl,
            asyncRefreshWith_abort c fl env o hb]
    · simp only [step, asyncSetUpdateError]
      split_ifs <;> rfl
    · simp only [step, asyncSetUpdatedData]
      split_ifs <;> simp
    · simp only [step, asyncAddListener]
      split_ifs <;> simp
    · simp only [step, removeListener, unscheduleRefresh]
      split_ifs <;> rfl
    · rfl
    · simp only [step, unscheduleRefresh]
      split_ifs <;> rfl
  · calc (1 / 20 : ℚ) = 50000 / 10 ^ 6 := by norm_num
      _ ≤ (r : ℚ) / 10 ^ 6 := by gcongr
      _ = (initCoordinator α ui au he dp r).microsecond := rfl
  · calc (initCoordinator α ui au he dp r).microsecond
        = (r : ℚ) / 10 ^ 6 := rfl
      _ ≤ 500000 / 10 ^ 6 := by gcongr
      _ = 1 / 2 := by norm_num

/-- Claim C9, amended, witness: concrete arming at loop time `100.7`
lands on `100 + 0.1 + 30`, jitter survives a concrete shutdown step, and
the boundary draw `50000` gives jitter `0.05`. -/
theorem c9_amended_witness :
    (scheduleRefresh c_ok (1007 / 10)).unsub_refresh
        = some (((1007 / 10 : ℚ).floor : ℚ) + c_ok.microsecond + 30)
  ∧ (step c_ok (Op.shutdown)).microsecond = c_ok.microsecond
  ∧ (1 / 20 : ℚ)
        ≤ (initCoordinator Nat (some 30) true false false
            50000).microsecond
  ∧ (initCoordinator Nat (some 30) true false false 50000).microsecond
        ≤ 1 / 2 :=
  c9_amended c_ok (1007 / 10) 30 Op.shutdown (some 30) true false false
    50000 rfl rfl (by decide) (by decide)

/-- Claim C7, counterexample: `async_config_entry_first_refresh` runs its
cycle with `raise_on_auth_failed=True`, so an auth-failure cycle leaves
`last_update_success` false yet raises the `ConfigEntryAuthFailed` itself
(line 372-373) - the distinguished "not ready" error (line 283-285) is
never built in that case, contradicting "whenever that cycle leaves
lastUpdateSuccess false, raises a distinguished not-ready error". -/
theorem c7_counterexample :
    (asyncConfigEntryFirstRefresh c_ok ⟨false, 100⟩
        (.failure .authErr)).1.last_update_success = false
  ∧ (asyncConfigEntryFirstRefresh c_ok ⟨false, 100⟩
        (.failure .authErr)).2.2
      = some (.fromCycle .authErr) := by
  exact ⟨rfl, rfl⟩

/-- Claim C7, amended: the first-refresh entry point runs exactly one
cycle with `log_failures=False`, `raise_on_auth_failed=True` and
`raise_on_entry_error=True` (its state and effects are those of that
single `_async_refresh` call); when that cycle itself raises, that
exception propagates instead; when it does not raise, the entry point
raises `ConfigEntryNotReady` with `last_exception` as cause exactly when
`last_update_success` is false afterwards, and returns normally (raising
nothing) when it is true. -/
theorem c7_amended {α : Type} [DecidableEq α] (c : Coordinator α)
    (env : Env) (o : FetchOutcome α) :
    (asyncConfigEntryFirstRefresh c env o).1
        = (asyncRefreshWith c ⟨false, true, false, true⟩ env o).1
  ∧ (asyncConfigEntryFirstRefresh c env o).2.1
        = (asyncRefreshWith c ⟨false, true, false, true⟩ env o).2
  ∧ ((asyncRefreshWith c ⟨false, true, false, true⟩ env o).2.raised
        = none →
      (asyncConfigEntryFirstRefresh c env o).2.2
        = (if (asyncConfigEntryFirstRefresh c env o).1.last_update_success
           then none
           else some (.notReady
             (asyncConfigEntryFirstRefresh c env o).1.last_exception)))
  ∧ (∀ k : ErrKind,
      (asyncRefreshWith c ⟨false, true, false, true⟩ env o).2.raised
          = some k →
      (asyncConfigEntryFirstRefresh c env o).2.2
          = some (.fromCycle k)) := by
  rcases hr : (asyncRefreshWith c ⟨false, true, false, true⟩
      env o).2.raised with _ | k
  · refine ⟨?_, ?_, ?_, ?_⟩
    · simp only [asyncConfigEntryFirstRefresh, hr]
      split_ifs <;> rfl
    · simp only [asyncConfigEntryFirstRefresh, hr]
      split_ifs <;> rfl
    · intro _
      simp only [asyncConfigEntryFirstRefresh, hr]
      split_ifs <;> rfl
    · intro k hk
      exact absurd hk (by simp)
  · refine ⟨?_, ?_, ?_, ?_⟩
    · simp [asyncConfigEntryFirstRefresh, hr]
    · simp [asyncConfigEntryFirstRefresh, hr]
    · intro h0
      exact absurd h0 (by simp)
    · intro k2 hk2
      simp only [Option.some.injEq] at hk2
      subst hk2
      simp [asyncConfigEntryFirstRefresh, hr]

/-- Claim C7, amended, witness: a transient failure on first refresh
yields the not-ready raise carrying the classified error, per the third
conjunct applied at a concrete coordinator. -/
theorem c7_amended_witness :
    (asyncConfigEntryFirstRefresh c_ok ⟨false, 300⟩
        (.failure .timeoutErr)).2.2
      = (if (asyncConfigEntryFirstRefresh c_ok ⟨false, 300⟩
              (.failure .timeoutErr)).1.last_update_success
         then none
         else some (.notReady
           (asyncConfigEntryFirstRefresh c_ok ⟨false, 300⟩
              (.failure .timeoutErr)).1.last_exception)) :=
  (c7_amended c_ok ⟨false, 300⟩ (.failure .timeoutErr)).2.2.1 rfl

/-- Claim C3: for every refresh cycle that ran its fetch and completed
without re-raising, listeners are notified exactly when `always_update`
is true, or `last_update_success` changed value this cycle, or the new
`data` differs from the previous `data` - except that when both the
previous and the current cycle ended in failure no notification occurs;
consequently two consecutive failing (non-raising) cycles starting from a
success state notify exactly once, on the first transition into failure,
and not on the second. -/
theorem c3_notification_policy {α : Type} [DecidableEq α]
    (c : Coordinator α) (fl fl2 : Flags) (env env2 : Env)
    (o o2 : FetchOutcome α) :
    (((c.shutdown_requested || (fl.scheduled && env.is_stopping))
        = false) →
      (asyncRefreshWith c fl env o).2.raised = none →
      ((asyncRefreshWith c fl env o).2.notified = true ↔
        (¬ ((asyncRefreshWith c fl env o).1.last_update_success = false
              ∧ c.last_update_success = false)
          ∧ (c.always_update = true
              ∨ (asyncRefreshWith c fl env o).1.last_update_success
                  ≠ c.last_update_success
              ∨ (asyncRefreshWith c fl env o).1.data ≠ c.data))))
  ∧ (c.last_update_success = true →
      o.isFailure = true → o2.isFailure = true →
      ((c.shutdown_requested || (fl.scheduled && env.is_stopping))
          = false) →
      (((asyncRefreshWith c fl env o).1.shutdown_requested
          || (fl2.scheduled && env2.is_stopping)) = false) →
      (asyncRefreshWith c fl env o).2.raised = none →
      (asyncRefreshWith (asyncRefreshWith c fl env o).1 fl2 env2
          o2).2.raised = none →
      ((asyncRefreshWith c fl env o).2.notified = true
        ∧ (asyncRefreshWith (asyncRefreshWith c fl env o).1 fl2 env2
            o2).2.notified = false)) := by
  constructor
  · intro hrun hnoraise
    obtain ⟨-, hr, -, hl, hd, -, -, -, -, -, -, -, -, hnot⟩ :=
      asyncRefreshWith_run c fl env o hrun
    rw [hr] at hnoraise
    rw [hnot, hl, hd, hnoraise]
    generalize lusAfter c.last_update_success o = b
    generalize dataAfter c.data o = d
    cases b <;> cases hcl : c.last_update_success <;>
      cases hau : c.always_update <;>
      by_cases hdc : c.data = d <;>
      (simp_all; try exact fun hEq => hdc hEq.symm)
  · intro hpre hf1 hf2 hrun1 hrun2 hnr1 hnr2
    obtain ⟨-, hr1, -, hl1, hd1, -, -, -, -, -, -, -, -, hnot1⟩ :=
      asyncRefreshWith_run c fl env o hrun1
    obtain ⟨-, hr2, -, -, -, -, -, -, -, -, -, -, -, hnot2⟩ :=
      asyncRefreshWith_run (asyncRefreshWith c fl env o).1 fl2 env2 o2
        hrun2
    rw [hr1] at hnr1
    rw [hr2] at hnr2
    rcases o with v | k
    · exact absurd hf1 (by simp [FetchOutcome.isFailure])
    rcases o2 with v2 | k2
    · exact absurd hf2 (by simp [FetchOutcome.isFailure])
    have hk1 : k ≠ ErrKind.notImplementedErr := by
      intro hEq
      subst hEq
      simp [raisedOf] at hnr1
    have hk2 : k2 ≠ ErrKind.notImplementedErr := by
      intro hEq
      subst hEq
      simp [raisedOf] at hnr2
    have hlu1 : lusAfter (α := α) c.last_update_success (.failure k)
        = false := by
      cases k <;> simp_all [lusAfter]
    constructor
    · rw [hnot1, hnr1, hlu1, hpre]
      simp
    · rw [hnot2, hnr2, hl1, hlu1]
      cases k2 <;> simp_all [lusAfter]


/-- Claim C3, witness: concrete check of both conjuncts - a transport
failure after success notifies (success flag flipped), and the following
timeout failure does not. -/
theorem c3_witness :
    ((asyncRefreshWith c_ok ⟨true, false, false, false⟩ ⟨false, 100⟩
        (.failure .requestErr)).2.notified = true
      ↔ (¬ ((asyncRefreshWith c_ok ⟨true, false, false, false⟩
              ⟨false, 100⟩
              (.failure .requestErr)).1.last_update_success = false
            ∧ c_ok.last_update_success = false)
        ∧ (c_ok.always_update = true
            ∨ (asyncRefreshWith c_ok ⟨true, false, false, false⟩
                ⟨false, 100⟩
                (.failure .requestErr)).1.last_update_success
                ≠ c_ok.last_update_success
            ∨ (asyncRefreshWith c_ok ⟨true, false, false, false⟩
                ⟨false, 100⟩ (.failure .requestErr)).1.data
                ≠ c_ok.data)))
  ∧ ((asyncRefreshWith c_ok ⟨true, false, false, false⟩ ⟨false, 100⟩
        (.failure .requestErr)).2.notified = true
      ∧ (asyncRefreshWith
          (asyncRefreshWith c_ok ⟨true, false, false, false⟩
            ⟨false, 100⟩ (.failure .requestErr)).1
          ⟨true, false, false, false⟩ ⟨false, 131⟩
          (.failure .timeoutErr)).2.notified = false) :=
  ⟨(c3_notification_policy c_ok ⟨true, false, false, false⟩
      ⟨true, false, false, false⟩ ⟨false, 100⟩ ⟨false, 131⟩
      (.failure .requestErr) (.failure .timeoutErr)).1 rfl rfl,
   (c3_notification_policy c_ok ⟨true, false, false, false⟩
      ⟨true, false, false, false⟩ ⟨false, 100⟩ ⟨false, 131⟩
      (.failure .requestErr) (.failure .timeoutErr)).2 rfl rfl rfl rfl
      rfl rfl rfl⟩

/-- Claim C4: under every operation on every state (hence in every
reachable state), `last_update_success` transitions from true to false
only through a failing fetch cycle or a manual error injection (both of
which require the prior state to be a success for the flip), transitions
from false to true only through a successful fetch cycle or a manual data
injection, and a failing operation applied to an already-failed state
leaves it false and triggers no listener notification. -/
theorem c4_transitions {α : Type} [DecidableEq α] (c : Coordinator α)
    (op : Op α) :
    ((step c op).last_update_success = false →
      c.last_update_success = true → op.isFailureOp = true)
  ∧ ((step c op).last_update_success = true →
      c.last_update_success = false → op.isSuccessOp = true)
  ∧ (c.last_update_success = false → op.isFailureOp = true →
      ((step c op).last_update_success = false
        ∧ notifyFlag c op = false)) := by
  rcases op with ⟨fl, env, o⟩ | k | ⟨v, t⟩ | ⟨l, t⟩ | i | _ | _
  · cases hb :
      (c.shutdown_requested || (fl.scheduled && env.is_stopping)) with
    | true =>
        have hab := asyncRefreshWith_abort c fl env o hb
        have hstep : step c (Op.refresh fl env o)
            = (asyncRefreshWith c fl env o).1 := rfl
        have hnf : notifyFlag c (Op.refresh fl env o)
            = (asyncRefreshWith c fl env o).2.notified := rfl
        refine ⟨?_, ?_, ?_⟩ <;> intro h1 h2 <;>
          rw [hstep, hab] at * <;> simp_all [hnf, hab]
    | false =>
        obtain ⟨-, -, -, hl, -, -, -, -, -, -, -, -, -, hnot⟩ :=
          asyncRefreshWith_run c fl env o hb
        have hstep : step c (Op.refresh fl env o)
            = (asyncRefreshWith c fl env o).1 := rfl
        have hnf : notifyFlag c (Op.refresh fl env o)
            = (asyncRefreshWith c fl env o).2.notified := rfl
        refine ⟨?_, ?_, ?_⟩
        · intro h1 h2
          rw [hstep, hl, h2] at h1
          rcases o with v | kk
          · simp [lusAfter] at h1
          · rfl
        · intro h1 h2
          rw [hstep, hl, h2] at h1
          rcases o with v | kk
          · rfl
          · cases kk <;> simp_all [lusAfter]
        · intro h1 h2
          rcases o with v | kk
          · exact absurd h2 (by simp [Op.isFailureOp])
          · have hlu : lusAfter (α := α) c.last_update_success
                (.failure kk) = false := by
              cases kk <;> simp_all [lusAfter]
            refine ⟨by rw [hstep, hl, hlu], ?_⟩
            rw [hnf, hnot, hlu, h1]
            simp
  · simp only [step, notifyFlag, asyncSetUpdateError]
    split_ifs with h <;>
      refine ⟨?_, ?_, ?_⟩ <;> intro h1 h2 <;>
      simp_all [Op.isFailureOp, Op.isSuccessOp]
  · simp only [step, notifyFlag, asyncSetUpdatedData]
    split_ifs with h <;>
      refine ⟨?_, ?_, ?_⟩ <;> intro h1 h2 <;>
      simp_all [Op.isFailureOp, Op.isSuccessOp]
  · simp only [step, notifyFlag, asyncAddListener]
    split_ifs with h <;>
      refine ⟨?_, ?_, ?_⟩ <;> intro h1 h2 <;>
      simp_all [Op.isFailureOp, Op.isSuccessOp]
  · simp only [step, notifyFlag, removeListener, unscheduleRefresh]
    split_ifs with h <;>
      refine ⟨?_, ?_, ?_⟩ <;> intro h1 h2 <;>
      simp_all [Op.isFailureOp, Op.isSuccessOp]
  · simp only [step, notifyFlag, asyncShutdown]
    refine ⟨?_, ?_, ?_⟩ <;> intro h1 h2 <;>
      simp_all [Op.isFailureOp, Op.isSuccessOp]
  · simp only [step, notifyFlag, unscheduleRefresh]
    split_ifs with h <;>
      refine ⟨?_, ?_, ?_⟩ <;> intro h1 h2 <;>
      simp_all [Op.isFailureOp, Op.isSuccessOp]


/-- Claim C4, witness: concrete flips - a manual error on a successful
coordinator is a failure operation, a manual data injection on a failed
coordinator is a success operation, and a failing refresh on a failed
coordinator stays failed without notifying. -/
theorem c4_witness :
    (Op.isFailureOp (α := Nat) (.setUpdateError .timeoutErr) = true)
  ∧ (Op.isSuccessOp (α := Nat) (.setUpdatedData 5 100) = true)
  ∧ ((step { c_ok with last_update_success := false }
        (.refresh ⟨true, false, false, false⟩ ⟨false, 100⟩
          (.failure .requestErr))).last_update_success = false
      ∧ notifyFlag { c_ok with last_update_success := false }
          (.refresh ⟨true, false, false, false⟩ ⟨false, 100⟩
            (.failure .requestErr)) = false) :=
  ⟨(c4_transitions c_ok (.setUpdateError .timeoutErr)).1 rfl rfl,
   (c4_transitions { c_ok with last_update_success := false }
      (.setUpdatedData 5 100)).2.1 rfl rfl,
   (c4_transitions { c_ok with last_update_success := false }
      (.refresh ⟨true, false, false, false⟩ ⟨false, 100⟩
        (.failure .requestErr))).2.2 rfl rfl⟩

end UpdateCoordinator
